import Mathlib

/-!
Shallow embedding of the AVS fiber spectrograph device controller
(`python/lsst/ts/FiberSpectrograph/avsFiberSpectrograph.py`).

The vendor library (`libavs`) is modelled as an oracle `AvsLib` giving the
return code (and, where relevant, the output data) of each `AVS_*` entry
point.  Controller operations are embedded as pure functions from the oracle
and the relevant controller state to an outcome together with the list of
vendor calls they issue, so that call counts and call order are provable.
-/

namespace AvsSpec

/-- The `MeasureConfig` fields that `expose` fills in before calling
`AVS_PrepareMeasure` (integration time is converted seconds to
milliseconds). -/
structure MeasureConfigSent where
  startPixel : Nat
  stopPixel : Int
  integrationTimeMs : ℚ
  nrAverages : Nat
  deriving DecidableEq, Repr

/-- Labels for the vendor (`AVS_*`) entry points the controller invokes; the
prepare-measure label records the configuration record passed to it. -/
inductive VendorCall
  | updateUSBDevices
  | getList
  | activate
  | getNumPixels
  | getVersionInfo
  | getParameter
  | getAnalogIn
  | prepareMeasure (cfg : MeasureConfigSent)
  | measure
  | getLambda
  | pollScan
  | getScopeData
  | stopMeasure
  | deactivate
  | avsDone
  deriving DecidableEq, Repr

/-- Embedding of the `AvsIdentity` ctypes record: serial number, friendly
name, and the one-byte status field.  The serial number is modelled as the
decoded ASCII string the source compares against. -/
structure AvsIdentity where
  serialNumber : String
  userFriendlyName : String
  status : Nat
  deriving DecidableEq, Repr

/-- The Python exceptions the controller can raise. -/
inductive PyError
  | runtimeError (msg : String)
  | lookupError (msg : String)
  | indexError
  | avsReturnError (code : Int) (what : String)
  | cancelled
  deriving DecidableEq, Repr

/-- The named return codes of the `AvsReturnCode` enum, exactly as listed in
the source (note that -23 is absent and `invalidHandle = 1000`). -/
def avsCodeNames : List (Int × String) :=
  [(0, "success"),
   (-1, "ERR_INVALID_PARAMETER"),
   (-2, "ERR_OPERATION_NOT_SUPPORTED"),
   (-3, "ERR_DEVICE_NOT_FOUND"),
   (-4, "ERR_INVALID_DEVICE_ID"),
   (-5, "ERR_OPERATION_PENDING"),
   (-6, "ERR_TIMEOUT"),
   (-7, "ERR_INVALID_PASSWORD"),
   (-8, "ERR_INVALID_MEAS_DATA"),
   (-9, "ERR_INVALID_SIZE"),
   (-10, "ERR_INVALID_PIXEL_RANGE"),
   (-11, "ERR_INVALID_INT_TIME"),
   (-12, "ERR_INVALID_COMBINATION"),
   (-13, "ERR_INVALID_CONFIGURATION"),
   (-14, "ERR_NO_MEAS_BUFFER_AVAIL"),
   (-15, "ERR_UNKNOWN"),
   (-16, "ERR_COMMUNICATION"),
   (-17, "ERR_NO_SPECTRA_IN_RAM"),
   (-18, "ERR_INVALID_DLL_VERSION"),
   (-19, "ERR_NO_MEMORY"),
   (-20, "ERR_DLL_INITIALISATION"),
   (-21, "ERR_INVALID_STATE"),
   (-22, "ERR_INVALID_REPLY"),
   (-24, "ERR_ACCESS"),
   (-100, "ERR_INVALID_PARAMETER_NR_PIXELS"),
   (-101, "ERR_INVALID_PARAMETER_ADC_GAIN"),
   (-102, "ERR_INVALID_PARAMETER_ADC_OFFSET"),
   (-110, "ERR_INVALID_MEASPARAM_AVG_SAT2"),
   (-111, "ERR_INVALID_MEASPARAM_AVG_RAM"),
   (-112, "ERR_INVALID_MEASPARAM_SYNC_RAM"),
   (-113, "ERR_INVALID_MEASPARAM_LEVEL_RAM"),
   (-114, "ERR_INVALID_MEASPARAM_SAT2_RAM"),
   (-115, "ERR_INVALID_MEASPARAM_FWVER_RAM"),
   (-116, "ERR_INVALID_MEASPARAM_DYNDARK"),
   (-120, "ERR_NOT_SUPPORTED_BY_SENSOR_TYPE"),
   (-121, "ERR_NOT_SUPPORTED_BY_FW_VER"),
   (-122, "ERR_NOT_SUPPORTED_BY_FPGA_VER"),
   (-140, "ERR_SL_CALIBRATION_NOT_AVAILABLE"),
   (-141, "ERR_SL_STARTPIXEL_NOT_IN_RANGE"),
   (-142, "ERR_SL_ENDPIXEL_NOT_IN_RANGE"),
   (-143, "ERR_SL_STARTPIX_GT_ENDPIX"),
   (-144, "ERR_SL_MFACTOR_OUT_OF_RANGE"),
   (1000, "invalidHandle")]

/-- Name of a vendor code when it is a member of `AvsReturnCode`
(`AvsReturnError.__init__` succeeds in converting it), else `none`
(the `ValueError` branch, which marks the error as not valid). -/
def avsCodeName (code : Int) : Option String :=
  (avsCodeNames.find? fun p => p.1 = code).map fun p => p.2

/-- The Python `repr` of a recognized `AvsReturnCode` member, as interpolated
by the f-strings in `AvsReturnError.__str__`. -/
def avsCodeRepr (code : Int) (name : String) : String :=
  "<AvsReturnCode." ++ name ++ ": " ++ toString code ++ ">"

/-- Embedding of `AvsReturnError.__str__`: the unknown-code message when the
code is not an `AvsReturnCode` member, the fatal allocated-size message for
`ERR_INVALID_SIZE` (-9), and the generic error message otherwise. -/
def avsReturnErrorStr (code : Int) (what : String) : String :=
  match avsCodeName code with
  | none =>
      "Unknown Error (" ++ toString code ++ ") calling `" ++ what ++ "`;" ++
        " Please consult Avantes documentation and update `AvsReturnCode` to include this code."
  | some name =>
      if code = -9 then
        "Fatal Error " ++ avsCodeRepr code name ++ " calling `" ++ what ++
          "`: allocated size too small for data."
      else
        "Error calling `" ++ what ++ "` with error code " ++ avsCodeRepr code name

/-- Embedding of `assert_avs_code`: produce the `AvsReturnError` to raise
when the returned code is negative, and nothing otherwise. -/
def assert_avs_code (code : Int) (what : String) : Option PyError :=
  if code < 0 then some (.avsReturnError code what) else none

/-- Oracle for the vendor library: the return code (and output data) each
`AVS_*` entry point would produce when called by the controller.  `pollScan`
is indexed by the number of preceding `AVS_PollScan` calls, so that
poll-by-poll scripts (for example always-zero) are expressible. -/
structure AvsLib where
  nDevices : Int
  getListCode : Int
  deviceList : List AvsIdentity
  activateResult : Int
  getNumPixelsCode : Int
  nPixels : Nat
  prepareMeasureCode : Int
  measureCode : Int
  getLambdaCode : Int
  pollScan : Nat → Int
  getScopeDataCode : Int
  stopMeasureCode : Int
  deactivateResult : Bool

/-- The observable events of one `stop_exposure` call, in program order. -/
inductive StopEvent
  | callStopMeasure
  | cancelTask
  | raiseError (e : PyError)
  deriving DecidableEq, Repr

/-- Embedding of `AvsFiberSpectrograph.stop_exposure`:
if `self._expose_task.done()` the body is skipped entirely; otherwise the
controller calls `AVS_StopMeasure`, then cancels `self._expose_task`, and
only then checks the stop code with `assert_avs_code` (so a failure is
raised after the cancellation has been requested). -/
def stop_exposure (lib : AvsLib) (exposeTaskDone : Bool) : List StopEvent :=
  if exposeTaskDone then []
  else
    [.callStopMeasure, .cancelTask] ++
      (match assert_avs_code lib.stopMeasureCode "StopMeasure" with
       | some e => [.raiseError e]
       | none => [])

/-- Vendor calls made by a `stop_exposure` event list. -/
def stopVendorCalls (events : List StopEvent) : List VendorCall :=
  events.filterMap fun e =>
    match e with
    | .callStopMeasure => some .stopMeasure
    | _ => none

/-- Error raised by a `stop_exposure` event list, if any. -/
def stopRaised (events : List StopEvent) : Option PyError :=
  events.findSome? fun e =>
    match e with
    | .raiseError err => some err
    | _ => none

/-- Outcome of the polling `while` loop inside `expose`. -/
inductive PollOutcome
  | ready
  | failed (e : PyError)
  | stillPolling
  deriving DecidableEq, Repr

/-- Embedding of the polling loop of `expose`:
`data_available = 0; while data_available != 1:` call `AVS_PollScan`, raise
via `assert_avs_code` on a negative code, then sleep 1 ms and re-test.  The
loop in the source has no bound, so the embedding takes explicit fuel;
`stillPolling` records that the loop was still running after `fuel`
iterations.  `k` counts the `AVS_PollScan` calls already made. -/
def pollLoop (lib : AvsLib) (k : Nat) : Nat → PollOutcome × List VendorCall
  | 0 => (.stillPolling, [])
  | fuel + 1 =>
      let r := lib.pollScan k
      if r < 0 then (.failed (.avsReturnError r "PollScan"), [.pollScan])
      else if r = 1 then (.ready, [.pollScan])
      else
        let rest := pollLoop lib (k + 1) fuel
        (rest.1, .pollScan :: rest.2)

/-- Outcome of one `expose` coroutine. -/
inductive ExpOutcome
  | success
  | returnedNone
  | raised (e : PyError)
  | stillPolling
  deriving DecidableEq, Repr

/-- The measurement configuration `expose` sends for a given pixel count and
duration in seconds: full pixel range, one average. -/
def exposeConfig (nPixels : Nat) (duration : ℚ) : MeasureConfigSent :=
  { startPixel := 0
    stopPixel := (nPixels : Int) - 1
    integrationTimeMs := duration * 1000
    nrAverages := 1 }

/-- Embedding of `AvsFiberSpectrograph.expose`.

The body builds the measurement configuration and unconditionally calls
`AVS_PrepareMeasure`, `AVS_Measure` and `AVS_GetLambda` (each checked with
`assert_avs_code`); it then replaces `self._expose_task` with a task that
sleeps for `duration` and awaits it, catching `CancelledError` and returning
`None`; finally it runs the polling loop and reads the data with
`AVS_GetScopeData`.

`priorTaskDone` records whether `self._expose_task.done()` held on entry; the
source never inspects it before starting, so it is (faithfully) unused.
`cancelDuringWait` states whether the integration-sleep task is cancelled
while `expose` is suspended on it.  `fuel` bounds the (unbounded) polling
loop as in `pollLoop`. -/
def expose (lib : AvsLib) (nPixels : Nat) (duration : ℚ) (priorTaskDone : Bool)
    (cancelDuringWait : Bool) (fuel : Nat) : ExpOutcome × List VendorCall :=
  let cfg := exposeConfig nPixels duration
  if lib.prepareMeasureCode < 0 then
    (.raised (.avsReturnError lib.prepareMeasureCode "PrepareMeasure"), [.prepareMeasure cfg])
  else if lib.measureCode < 0 then
    (.raised (.avsReturnError lib.measureCode "Measure"), [.prepareMeasure cfg, .measure])
  else if lib.getLambdaCode < 0 then
    (.raised (.avsReturnError lib.getLambdaCode "GetLambda"),
      [.prepareMeasure cfg, .measure, .getLambda])
  else if cancelDuringWait then
    (.returnedNone, [.prepareMeasure cfg, .measure, .getLambda])
  else
    let pre : List VendorCall := [.prepareMeasure cfg, .measure, .getLambda]
    let p := pollLoop lib 0 fuel
    match p.1 with
    | .failed e => (.raised e, pre ++ p.2)
    | .stillPolling => (.stillPolling, pre ++ p.2)
    | .ready =>
        if lib.getScopeDataCode < 0 then
          (.raised (.avsReturnError lib.getScopeDataCode "GetScopeData"),
            pre ++ p.2 ++ [.getScopeData])
        else (.success, pre ++ p.2 ++ [.getScopeData])

/-- The two suspension-point phases of a running `expose`. -/
inductive ExposePhase
  | waiting
  | polling
  deriving DecidableEq, Repr

/-- Whether `self._expose_task.done()` holds while `expose` is suspended in
the given phase.  In the source, `_expose_task` is set to the
integration-sleep task only (`asyncio.create_task(asyncio.sleep(duration))`),
so it is pending during the integration wait and already done once the
polling loop is reached. -/
def exposeTaskDoneDuring : ExposePhase → Bool
  | .waiting => false
  | .polling => true

/-- Modelled from the spec: the closed vendor-documented exposure-duration
bound.  The module under `src` defines no duration bounds; its tests import
`MIN_DURATION` from it and document the vendor range as 0.002 ms to 600 s. -/
def MIN_DURATION : ℚ := 2 / 1000000

/-- Modelled from the spec: upper end of the vendor-documented
exposure-duration bound (600 s); absent from the module under `src`. -/
def MAX_DURATION : ℚ := 600

/-- Result of `_connect`: either a raised exception or the activated handle
together with the cached pixel count, plus the vendor calls issued. -/
structure ConnectResult where
  outcome : Except PyError (Int × Nat)
  calls : List VendorCall
  deriving Repr

/-- Embedding of `AvsFiberSpectrograph._connect`:
`AVS_UpdateUSBDevices` (zero devices raises RuntimeError), `AVS_GetList`
(checked), then device selection: with no serial number, more than one device
raises RuntimeError and otherwise the first device is taken; with a serial
number, the first device whose decoded serial matches is taken and a missing
match raises LookupError.  The selected device is then passed to
`AVS_Activate` (checked, and the `invalidHandle` sentinel raises
RuntimeError), and `AVS_GetNumPixels` caches the pixel count.  The
status byte of the selected device is never inspected. -/
def connect (lib : AvsLib) (serialNumber : Option String) : ConnectResult :=
  if lib.nDevices = 0 then
    { outcome := .error (.runtimeError "No attached USB Avantes devices found.")
      calls := [.updateUSBDevices] }
  else
    match assert_avs_code lib.getListCode "GetList (device list)" with
    | some e => { outcome := .error e, calls := [.updateUSBDevices, .getList] }
    | none =>
        let selected : Except PyError AvsIdentity :=
          match serialNumber with
          | none =>
              if lib.deviceList.length > 1 then
                .error (.runtimeError "Multiple devices found, but no serial number specified.")
              else
                match lib.deviceList.head? with
                | some d => .ok d
                | none => .error .indexError
          | some s =>
              match lib.deviceList.find? fun d => d.serialNumber = s with
              | some d => .ok d
              | none =>
                  .error (.lookupError ("Device serial number " ++ s ++ " not found in device list"))
        match selected with
        | .error e => { outcome := .error e, calls := [.updateUSBDevices, .getList] }
        | .ok _ =>
            let handle := lib.activateResult
            match assert_avs_code handle "Activate" with
            | some e => { outcome := .error e, calls := [.updateUSBDevices, .getList, .activate] }
            | none =>
                if handle = 1000 then
                  { outcome := .error (.runtimeError "Invalid device handle; cannot activate device.")
                    calls := [.updateUSBDevices, .getList, .activate] }
                else
                  match assert_avs_code lib.getNumPixelsCode "GetNumPixels" with
                  | some e =>
                      { outcome := .error e
                        calls := [.updateUSBDevices, .getList, .activate, .getNumPixels] }
                  | none =>
                      { outcome := .ok (handle, lib.nPixels)
                        calls := [.updateUSBDevices, .getList, .activate, .getNumPixels] }

/-- The controller state that `disconnect` reads and writes: the device
handle (`none` models the Python `None`) and whether the exposure future is
done. -/
structure ControllerState where
  handle : Option Int
  exposeTaskDone : Bool
  deriving DecidableEq, Repr

/-- Result of one `disconnect` call. -/
structure DisconnectResult where
  state : ControllerState
  calls : List VendorCall
  raised : Option PyError
  deriving DecidableEq, Repr

/-- Embedding of `AvsFiberSpectrograph.disconnect`:
when the handle is set and is not the `invalidHandle` sentinel, it first runs
`stop_exposure` (with no exception handler around it: an `AvsReturnError`
from the stop propagates out of `disconnect`, skipping the rest of the
body, with the handle left unchanged but the exposure task already
cancelled), then calls `AVS_Deactivate` (a false result is only logged) and
clears the handle.  In all non-raising paths it finally calls `AVS_Done`. -/
def disconnect (lib : AvsLib) (st : ControllerState) : DisconnectResult :=
  match st.handle with
  | none => { state := st, calls := [.avsDone], raised := none }
  | some h =>
      if h = 1000 then { state := st, calls := [.avsDone], raised := none }
      else
        let stopEvents := stop_exposure lib st.exposeTaskDone
        let stopCalls := stopVendorCalls stopEvents
        match stopRaised stopEvents with
        | some e =>
            { state := { handle := st.handle, exposeTaskDone := true }
              calls := stopCalls
              raised := some e }
        | none =>
            { state := { handle := none, exposeTaskDone := true }
              calls := stopCalls ++ [.deactivate, .avsDone]
              raised := none }

/-- A healthy single connected device, mirroring the test-suite simulator:
every vendor call succeeds and `AVS_PollScan` reports data on its fourth
call (script `[0, 0, 0, 1]`). -/
def goodLib : AvsLib where
  nDevices := 1
  getListCode := 0
  deviceList := [{ serialNumber := "123456789", userFriendlyName := "Fake Spectrograph", status := 0 }]
  activateResult := 7
  getNumPixelsCode := 0
  nPixels := 2048
  prepareMeasureCode := 0
  measureCode := 0
  getLambdaCode := 0
  pollScan := fun k => if 3 ≤ k then 1 else 0
  getScopeDataCode := 0
  stopMeasureCode := 0
  deactivateResult := true

/-- The healthy device, but `AVS_StopMeasure` fails with `ERR_TIMEOUT`. -/
def stopErrLib : AvsLib := { goodLib with stopMeasureCode := -6 }

/-- The healthy device, but `AVS_StopMeasure` fails with
`ERR_INVALID_PARAMETER`. -/
def stopBadLib : AvsLib := { goodLib with stopMeasureCode := -1 }

/-- The healthy device, but `AVS_PollScan` reports no data forever. -/
def pollZeroLib : AvsLib := { goodLib with pollScan := fun _ => 0 }

/-- A device whose identity status byte (1, in use by application) shows a
prior claim. -/
def inUseDevice : AvsIdentity :=
  { serialNumber := "12345", userFriendlyName := "Fake Spectrograph 2", status := 1 }

/-- The healthy vendor library, but the sole enumerated device is already
claimed according to its status byte. -/
def inUseLib : AvsLib := { goodLib with deviceList := [inUseDevice] }

/-- C1: for every `stop_exposure` call, if the exposure future is done the
body makes no vendor call and returns without raising; otherwise exactly one
`AVS_StopMeasure` call is issued and the exposure task is cancelled, and a
negative stop code is raised only after the cancellation (the raise event
follows the cancel event in program order). -/
theorem stop_exposure_contract (lib : AvsLib) :
    stop_exposure lib true = [] ∧
    stopVendorCalls (stop_exposure lib false) = [.stopMeasure] ∧
    (0 ≤ lib.stopMeasureCode →
      stop_exposure lib false = [.callStopMeasure, .cancelTask]) ∧
    (lib.stopMeasureCode < 0 →
      stop_exposure lib false =
        [.callStopMeasure, .cancelTask,
          .raiseError (.avsReturnError lib.stopMeasureCode "StopMeasure")]) := by
  refine ⟨rfl, ?_, fun h => ?_, fun h => ?_⟩
  · by_cases h : lib.stopMeasureCode < 0 <;>
      simp [stop_exposure, assert_avs_code, stopVendorCalls, h]
  · simp [stop_exposure, assert_avs_code, not_lt.mpr h]
  · simp [stop_exposure, assert_avs_code, h]

/-- Witness for `stop_exposure_contract`, at a library whose stop call
succeeds and at one whose stop call fails with `ERR_TIMEOUT`. -/
theorem stop_exposure_contract_witness :
    ((0 : Int) ≤ goodLib.stopMeasureCode ∧
      stop_exposure goodLib false = [.callStopMeasure, .cancelTask]) ∧
    (stopErrLib.stopMeasureCode < 0 ∧
      stop_exposure stopErrLib false =
        [.callStopMeasure, .cancelTask,
          .raiseError (.avsReturnError stopErrLib.stopMeasureCode "StopMeasure")]) :=
  ⟨⟨by decide, (stop_exposure_contract goodLib).2.2.1 (by decide)⟩,
    ⟨by decide, (stop_exposure_contract stopErrLib).2.2.2 (by decide)⟩⟩

/-- C9: `assert_avs_code` raises exactly on negative codes, and the raised
error renders in exactly one of three forms: the fatal allocated-size
message for the distinguished code -9, the named-code message for any other
recognized code, and the unknown-code message (with the reminder to consult
the vendor documentation and extend `AvsReturnCode`) for unrecognized
codes; the three cases are exhaustive over negative codes. -/
theorem assert_avs_code_classification (code : Int) (what : String) :
    (assert_avs_code code what = none ↔ 0 ≤ code) ∧
    (code < 0 → assert_avs_code code what = some (.avsReturnError code what)) ∧
    (code = -9 →
      avsReturnErrorStr code what =
        "Fatal Error " ++ avsCodeRepr code "ERR_INVALID_SIZE" ++ " calling `" ++ what ++
          "`: allocated size too small for data.") ∧
    (∀ name, avsCodeName code = some name → code ≠ -9 →
      avsReturnErrorStr code what =
        "Error calling `" ++ what ++ "` with error code " ++ avsCodeRepr code name) ∧
    (avsCodeName code = none →
      avsReturnErrorStr code what =
        "Unknown Error (" ++ toString code ++ ") calling `" ++ what ++ "`;" ++
          " Please consult Avantes documentation and update `AvsReturnCode` to include this code.") ∧
    (code < 0 →
      code = -9 ∨ (∃ name, avsCodeName code = some name ∧ code ≠ -9) ∨
        avsCodeName code = none) := by
  refine ⟨?_, fun h => ?_, fun h => ?_, fun name h h9 => ?_, fun h => ?_, fun _ => ?_⟩
  · simp only [assert_avs_code, ite_eq_right_iff]
    constructor
    · intro h
      by_contra hc
      exact Option.noConfusion (h (lt_of_not_ge hc))
    · intro h hlt
      exact absurd hlt (not_lt.mpr h)
  · simp [assert_avs_code, h]
  · subst h
    simp [avsReturnErrorStr, show avsCodeName (-9) = some "ERR_INVALID_SIZE" from rfl]
  · simp [avsReturnErrorStr, h, h9]
  · simp [avsReturnErrorStr, h]
  · rcases hn : avsCodeName code with _ | name
    · exact Or.inr (Or.inr rfl)
    · by_cases h9 : code = -9
      · exact Or.inl h9
      · exact Or.inr (Or.inl ⟨name, rfl, h9⟩)

/-- Witness for `assert_avs_code_classification`, at a recognized code (-6),
the distinguished code -9, and an unrecognized code (-23, absent from
`AvsReturnCode`). -/
theorem assert_avs_code_classification_witness :
    ((-6 : Int) < 0 ∧
      assert_avs_code (-6) "StopMeasure" = some (.avsReturnError (-6) "StopMeasure")) ∧
    ((-9 : Int) = -9 ∧
      avsReturnErrorStr (-9) "GetParameter" =
        "Fatal Error " ++ avsCodeRepr (-9) "ERR_INVALID_SIZE" ++ " calling `" ++
          "GetParameter" ++ "`: allocated size too small for data.") ∧
    (avsCodeName (-6) = some "ERR_TIMEOUT" ∧ (-6 : Int) ≠ -9 ∧
      avsReturnErrorStr (-6) "PollScan" =
        "Error calling `" ++ "PollScan" ++ "` with error code " ++ avsCodeRepr (-6) "ERR_TIMEOUT") ∧
    (avsCodeName (-23) = none ∧
      avsReturnErrorStr (-23) "Measure" =
        "Unknown Error (" ++ toString (-23 : Int) ++ ") calling `" ++ "Measure" ++ "`;" ++
          " Please consult Avantes documentation and update `AvsReturnCode` to include this code.") :=
  ⟨⟨by decide, (assert_avs_code_classification (-6) "StopMeasure").2.1 (by decide)⟩,
    ⟨rfl, (assert_avs_code_classification (-9) "GetParameter").2.2.1 rfl⟩,
    ⟨by decide, by decide,
      (assert_avs_code_classification (-6) "PollScan").2.2.2.1 "ERR_TIMEOUT" (by decide) (by decide)⟩,
    ⟨by decide, (assert_avs_code_classification (-23) "Measure").2.2.2.2.1 (by decide)⟩⟩

/-- C2 is false of the source: during the polling phase the exposure future
(the integration-sleep task) is already done, so `stop_exposure` performs no
event at all (no `AVS_StopMeasure` call and no cancellation); and a
cancellation during the wait phase makes `expose` return `None` instead of
resolving as cancelled. -/
theorem stop_exposure_poll_phase_noop :
    exposeTaskDoneDuring .polling = true ∧
    stop_exposure goodLib (exposeTaskDoneDuring .polling) = [] ∧
    (expose goodLib 2048 2 false true 10).1 = .returnedNone ∧
    (expose goodLib 2048 2 false true 10).1 ≠ .raised .cancelled := by
  exact ⟨rfl, rfl, by decide, by decide⟩

/-- C3 is false of the source: a cancellation delivered at the
integration-duration wait is caught inside `expose`, which returns `None`
(a value) instead of propagating the cancellation; the vendor calls stop at
`AVS_GetLambda`, so the no-further-vendor-calls half of the claim does
hold (no `AVS_PollScan`, no `AVS_GetScopeData`). -/
theorem expose_cancelled_wait_returns_none :
    expose goodLib 2048 (1/2) false true 10 =
      (.returnedNone, [.prepareMeasure (exposeConfig 2048 (1/2)), .measure, .getLambda]) ∧
    VendorCall.pollScan ∉ (expose goodLib 2048 (1/2) false true 10).2 ∧
    VendorCall.getScopeData ∉ (expose goodLib 2048 (1/2) false true 10).2 := by
  refine ⟨rfl, by decide, by decide⟩

/-- With a vendor library whose poll-scan always reports no data, the
polling loop is still running after any number of iterations, having made
one `AVS_PollScan` call per iteration. -/
theorem pollLoop_const_zero (k fuel : Nat) :
    pollLoop pollZeroLib k fuel = (.stillPolling, List.replicate fuel .pollScan) := by
  induction fuel generalizing k with
  | zero => rfl
  | succ n ih =>
      simp [pollLoop, show pollZeroLib.pollScan k = 0 from rfl, ih, List.replicate_succ]

/-- C4 is false of the source: the polling loop has no overall timeout.
When `AVS_PollScan` returns 0 on every invocation, `expose` is still in the
polling loop after every number of iterations (one poll call per
iteration), so it never terminates and in particular never raises a Timeout
condition. -/
theorem expose_polls_forever_without_timeout (fuel : Nat) :
    expose pollZeroLib 2048 (1/2) false false fuel =
      (.stillPolling,
        [.prepareMeasure (exposeConfig 2048 (1/2)), .measure, .getLambda] ++
          List.replicate fuel .pollScan) := by
  simp [expose, pollLoop_const_zero,
    show ¬ pollZeroLib.prepareMeasureCode < 0 from by decide,
    show ¬ pollZeroLib.measureCode < 0 from by decide,
    show ¬ pollZeroLib.getLambdaCode < 0 from by decide]

/-- C5 is false of the source: `expose` performs no duration validation.
With the out-of-range duration 601 s (above `MAX_DURATION` = 600 s) it
issues the full vendor-call sequence, passing the out-of-range integration
time (601000 ms) straight to `AVS_PrepareMeasure`, and succeeds; its
behaviour is identical to an in-range 2 s exposure up to the configuration
record sent. -/
theorem expose_ignores_duration_bounds :
    MAX_DURATION < 601 ∧
    (expose goodLib 2048 601 false false 10).1 = .success ∧
    (expose goodLib 2048 601 false false 10).2 =
      [.prepareMeasure (exposeConfig 2048 601), .measure, .getLambda,
        .pollScan, .pollScan, .pollScan, .pollScan, .getScopeData] ∧
    (exposeConfig 2048 601).integrationTimeMs = 601000 := by
  refine ⟨by norm_num [MAX_DURATION], by decide, rfl, by norm_num [exposeConfig]⟩

/-- C6 is false of the source: `expose` never inspects the exposure future
on entry, so a second `expose` started while one is active behaves exactly
like a first one — it succeeds and issues its own full set of vendor calls
instead of failing with a cannot-start-new-exposure reason. -/
theorem expose_ignores_active_exposure :
    expose goodLib 2048 (1/5) false false 10 = expose goodLib 2048 (1/5) true false 10 ∧
    (expose goodLib 2048 (1/5) false false 10).1 = .success ∧
    (expose goodLib 2048 (1/5) false false 10).2 ≠ [] := by
  refine ⟨rfl, by decide, by decide⟩

/-- C7 is false of the source: `_connect` never inspects the status byte of
the selected device.  With a single enumerated device whose status byte (1)
shows a prior claim, connection proceeds to `AVS_Activate` and succeeds
instead of raising an already-in-use fault before activation. -/
theorem connect_ignores_in_use_status :
    inUseDevice.status ≠ 0 ∧
    (connect inUseLib none).outcome = .ok (7, 2048) ∧
    (connect inUseLib none).calls = [.updateUSBDevices, .getList, .activate, .getNumPixels] := by
  refine ⟨by decide, rfl, by decide⟩

/-- C8 is false of the source: `disconnect` has no exception handler around
its internal `stop_exposure`.  With an active exposure and a failing
`AVS_StopMeasure`, `disconnect` raises the `AvsReturnError` to its caller,
the handle is not cleared, and teardown never reaches `AVS_Deactivate` or
`AVS_Done`. -/
theorem disconnect_propagates_stop_error :
    disconnect stopBadLib { handle := some 5, exposeTaskDone := false } =
      { state := { handle := some 5, exposeTaskDone := true }
        calls := [.stopMeasure]
        raised := some (.avsReturnError (-1) "StopMeasure") } := by
  decide

/-- C10 is false of the source: `AVS_Done` is not called unconditionally.
On a disconnect with no handle it is indeed the only vendor call, but when
stopping the active exposure raises, `disconnect` propagates before reaching
`AVS_Done`, so that call makes zero `AVS_Done` calls. -/
theorem disconnect_avs_done_skipped_on_raise :
    (disconnect goodLib { handle := none, exposeTaskDone := true }).calls = [.avsDone] ∧
    ((disconnect stopBadLib { handle := some 5, exposeTaskDone := false }).calls.count
      .avsDone) = 0 ∧
    (disconnect stopBadLib { handle := some 5, exposeTaskDone := false }).raised ≠ none := by
  refine ⟨rfl, by decide, by decide⟩

end AvsSpec
